import Mathlib

/-
Shallow embedding of the Jolt-File-Activity-Mapper log parsers
(SysmonLogParser in src/unnamed/part_000, ElkLogParser and DefenderLogParser
in src/elk-parser.js, WazuhLogParser in src/wazuh-parser.js).

Modelling conventions:
- JS `undefined`/missing object fields are `Option` values (`none` = absent).
- JS strings are Lean `String`; JSON numbers appearing in the parsed events
  (EventID, ports, process ids, rule levels) are `Int`.
- JS truthiness on the values this code actually tests: a string is falsy
  exactly when it is empty, a number exactly when it is 0, and `undefined`
  is always falsy.  `a || b` returns `a` when truthy, else `b`.
- `new Date().toISOString()` is modelled by an explicit `now : String`
  argument threaded through the parse functions.
- String operations (`split`, `pop`, `includes`, `parseInt`) are modelled by
  executable character-list functions below so that the kernel can evaluate
  them.
- Template literals render `undefined` as the string "undefined", as JS does.
-/

/-- Last element of a list, with a default (models Array.prototype.pop on the
result of a split, which is never empty). -/
def listLastD {α : Type} (l : List α) (d : α) : α :=
  match l with
  | [] => d
  | [x] => x
  | _ :: x :: xs => listLastD (x :: xs) d

/-- JS String.prototype.split with a one-character separator.  Returns the
list of (possibly empty) chunks; never returns the empty list. -/
def splitOnChar (sep : Char) : List Char → List (List Char)
  | [] => [[]]
  | c :: rest =>
    let r := splitOnChar sep rest
    if c = sep then [] :: r
    else
      match r with
      | h :: t => (c :: h) :: t
      | [] => [[c]]

/-- Does `pat` occur at the head of `s`? (helper for `strHasSub`). -/
def leadsWith : List Char → List Char → Bool
  | [], _ => true
  | _ :: _, [] => false
  | p :: ps, c :: cs => p == c && leadsWith ps cs

/-- Does `pat` occur anywhere in `s`? (helper for `strHasSub`). -/
def hasSub : List Char → List Char → Bool
  | [], pat => pat.isEmpty
  | s@(_ :: rest), pat => leadsWith pat s || hasSub rest pat

/-- JS String.prototype.includes. -/
def strHasSub (s pat : String) : Bool :=
  hasSub s.toList pat.toList

/-- `x.split(sep).pop()`: the final chunk after splitting on `sep`. -/
def jsPopSplit (sep : Char) (s : String) : String :=
  String.mk (listLastD (splitOnChar sep s.toList) s.toList)

/-- Numeric value of a run of decimal digits. -/
def digitsVal (l : List Char) : Int :=
  l.foldl (fun n c => n * 10 + Int.ofNat (c.toNat - 48)) 0

/-- JS parseInt(s, 10) on a character list: skip leading whitespace, optional
sign, then the longest run of decimal digits; `none` models NaN. -/
def jsParseIntChars (l0 : List Char) : Option Int :=
  let l := l0.dropWhile (fun c => c.isWhitespace)
  let sgn : Int :=
    match l with
    | c :: _ => if c = '-' then -1 else 1
    | [] => 1
  let l2 : List Char :=
    match l with
    | c :: rest => if c = '-' ∨ c = '+' then rest else l
    | [] => l
  let ds := l2.takeWhile (fun c => c.isDigit)
  if ds.isEmpty then none else some (sgn * digitsVal ds)

/-- JS parseInt(s, 10) on a string. -/
def jsParseInt10 (s : String) : Option Int :=
  jsParseIntChars s.toList

/-- Truthiness of an optional string (`undefined` and "" are falsy). -/
def strTruthy (o : Option String) : Bool :=
  match o with
  | none => false
  | some s => s != ""

/-- Truthiness of an optional number (`undefined` and 0 are falsy). -/
def intTruthy (o : Option Int) : Bool :=
  match o with
  | none => false
  | some n => n != 0

/-- JS `a || b` on optional strings. -/
def jsOrS (a b : Option String) : Option String :=
  if strTruthy a then a else b

/-- JS `a || b` on optional numbers. -/
def jsOrI (a b : Option Int) : Option Int :=
  if intTruthy a then a else b

/-- JS `a || d` where `d` is a string literal default. -/
def jsOrSD (a : Option String) (d : String) : String :=
  if strTruthy a then a.getD "" else d

/-- JS `a || b` on two plain strings (empty string is falsy). -/
def jsOrStr (a b : String) : String :=
  if a = "" then b else a

/-- Template-literal rendering of an optional string. -/
def jsShowO (o : Option String) : String :=
  match o with
  | none => "undefined"
  | some s => s

/-- Template-literal rendering of an optional number. -/
def jsShowOI (o : Option Int) : String :=
  match o with
  | none => "undefined"
  | some n => toString n

/-- `p >= k` in JS, where `p` may be NaN/undefined (then false). -/
def jsGeI (o : Option Int) (k : Int) : Bool :=
  match o with
  | none => false
  | some n => decide (k ≤ n)

/-- `p <= k` in JS, where `p` may be NaN/undefined (then false). -/
def jsLeI (o : Option Int) (k : Int) : Bool :=
  match o with
  | none => false
  | some n => decide (n ≤ k)

/-- isInternalIP, identical in all four classes (SysmonLogParser,
ElkLogParser, DefenderLogParser, WazuhLogParser); modelled once.  The
source binds `parts`, `p1`, `p2` as consts; they are inlined here. -/
def isInternalIP (ip : String) : Bool :=
  if ip = "" then false
  else if ip = "127.0.0.1" ∨ ip = "::1" then true
  else if (splitOnChar '.' ip.toList).length = 4 then
    if jsParseIntChars ((splitOnChar '.' ip.toList).getD 0 []) = some 10 then true
    else if jsParseIntChars ((splitOnChar '.' ip.toList).getD 0 []) = some 172 ∧
        jsGeI (jsParseIntChars ((splitOnChar '.' ip.toList).getD 1 [])) 16 = true ∧
        jsLeI (jsParseIntChars ((splitOnChar '.' ip.toList).getD 1 [])) 31 = true then true
    else if jsParseIntChars ((splitOnChar '.' ip.toList).getD 0 []) = some 192 ∧
        jsParseIntChars ((splitOnChar '.' ip.toList).getD 1 []) = some 168 then true
    else false
  else false

/-- isInternalIP applied to a possibly-undefined destination IP
(`!ip` is true for `undefined`). -/
def isInternalIPO (o : Option String) : Bool :=
  match o with
  | none => false
  | some s => isInternalIP s

/-- WazuhLogParser.mapWazuhLevel.  The JS guard `if (!level) return 'low'`
fires for both a missing level and a present level equal to 0. -/
def mapWazuhLevel (level : Option Int) : String :=
  match level with
  | none => "low"
  | some l =>
    if l = 0 then "low"
    else if 12 ≤ l then "high"
    else if 7 ≤ l then "medium"
    else if 3 ≤ l then "low"
    else "informational"

/-- The claim-side reading of the IP classifier (C5), written from the
words of the claim: internal exactly for the two loopback literals, or a
4-part dotted address whose first octet is 10, or 172 with second octet in
[16,31], or 192 with second octet 168. -/
def internalClaimSpec (ip : String) : Prop :=
  ip = "127.0.0.1" ∨ ip = "::1" ∨
    ((splitOnChar '.' ip.toList).length = 4 ∧
       (jsParseIntChars ((splitOnChar '.' ip.toList).getD 0 []) = some 10 ∨
        (jsParseIntChars ((splitOnChar '.' ip.toList).getD 0 []) = some 172 ∧
          ∃ n : Int, jsParseIntChars ((splitOnChar '.' ip.toList).getD 1 []) = some n ∧
            16 ≤ n ∧ n ≤ 31) ∨
        (jsParseIntChars ((splitOnChar '.' ip.toList).getD 0 []) = some 192 ∧
          jsParseIntChars ((splitOnChar '.' ip.toList).getD 1 []) = some 168)))

theorem jsGeLe_iff (p : Option Int) (a b : Int) :
    (jsGeI p a = true ∧ jsLeI p b = true) ↔ ∃ n : Int, p = some n ∧ a ≤ n ∧ n ≤ b := by
  cases p with
  | none => simp [jsGeI, jsLeI]
  | some n =>
    simp only [jsGeI, jsLeI, decide_eq_true_eq, Option.some.injEq]
    constructor
    · rintro ⟨h1, h2⟩; exact ⟨n, rfl, h1, h2⟩
    · rintro ⟨m, hm, h1, h2⟩; subst hm; exact ⟨h1, h2⟩

/-- C5: the IP classifier returns true exactly for the loopback literals and
the three private IPv4 ranges described by the claim, and the claim's seven
concrete examples evaluate as stated. -/
theorem c5_isInternalIP_characterization :
    (∀ ip : String, isInternalIP ip = true ↔ internalClaimSpec ip) ∧
    isInternalIP "10.0.0.1" = true ∧
    isInternalIP "172.16.0.5" = true ∧
    isInternalIP "192.168.1.1" = true ∧
    isInternalIP "127.0.0.1" = true ∧
    isInternalIP "172.32.0.5" = false ∧
    isInternalIP "8.8.8.8" = false ∧
    isInternalIP "" = false := by
  refine ⟨?_, by decide, by decide, by decide, by decide, by decide, by decide, by decide⟩
  intro ip
  unfold isInternalIP internalClaimSpec
  by_cases hemp : ip = ""
  · subst hemp
    rw [if_pos rfl]
    refine iff_of_false (by decide) ?_
    rintro (h | h | ⟨hlen, _⟩)
    · exact absurd h (by decide)
    · exact absurd h (by decide)
    · exact absurd hlen (by decide)
  · rw [if_neg hemp]
    by_cases hloop : ip = "127.0.0.1" ∨ ip = "::1"
    · rw [if_pos hloop]
      exact iff_of_true rfl (hloop.elim Or.inl (fun h => Or.inr (Or.inl h)))
    · rw [if_neg hloop]
      push_neg at hloop
      obtain ⟨h1, h2⟩ := hloop
      by_cases hlen : (splitOnChar '.' ip.toList).length = 4
      · rw [if_pos hlen]
        by_cases hp10 : jsParseIntChars ((splitOnChar '.' ip.toList).getD 0 []) = some 10
        · rw [if_pos hp10]
          exact iff_of_true rfl (Or.inr (Or.inr ⟨hlen, Or.inl hp10⟩))
        · rw [if_neg hp10]
          by_cases hp172 :
              jsParseIntChars ((splitOnChar '.' ip.toList).getD 0 []) = some 172 ∧
                jsGeI (jsParseIntChars ((splitOnChar '.' ip.toList).getD 1 [])) 16 = true ∧
                jsLeI (jsParseIntChars ((splitOnChar '.' ip.toList).getD 1 [])) 31 = true
          · rw [if_pos hp172]
            obtain ⟨ha, hb, hc⟩ := hp172
            have hex := (jsGeLe_iff (jsParseIntChars ((splitOnChar '.' ip.toList).getD 1 [])) 16 31).mp ⟨hb, hc⟩
            exact iff_of_true rfl (Or.inr (Or.inr ⟨hlen, Or.inr (Or.inl ⟨ha, hex⟩)⟩))
          · rw [if_neg hp172]
            by_cases hp192 :
                jsParseIntChars ((splitOnChar '.' ip.toList).getD 0 []) = some 192 ∧
                  jsParseIntChars ((splitOnChar '.' ip.toList).getD 1 []) = some 168
            · rw [if_pos hp192]
              exact iff_of_true rfl (Or.inr (Or.inr ⟨hlen, Or.inr (Or.inr hp192)⟩))
            · rw [if_neg hp192]
              refine iff_of_false (by decide) ?_
              rintro (h | h | ⟨_, h | ⟨ha, hex⟩ | h⟩)
              · exact h1 h
              · exact h2 h
              · exact hp10 h
              · exact hp172 ⟨ha, ((jsGeLe_iff _ 16 31).mpr hex).1,
                  ((jsGeLe_iff _ 16 31).mpr hex).2⟩
              · exact hp192 h
      · rw [if_neg hlen]
        refine iff_of_false (by decide) ?_
        rintro (h | h | h)
        · exact h1 h
        · exact h2 h
        · exact hlen h.1

/-- C2 (counterexample): a present rule level 0 is below 3 but maps to
"low", not "informational", because the JS falsiness guard `!level`
also fires for the number 0. -/
theorem c2_level_zero_counterexample :
    mapWazuhLevel (some 0) = "low" ∧ (0 : Int) < 3 ∧
      mapWazuhLevel (some 0) ≠ "informational" := by
  refine ⟨rfl, by decide, ?_⟩
  decide

/-- C2 (amended): mapWazuhLevel returns "high" for levels at least 12,
"medium" for levels in [7,12), "low" for levels in [3,7), "low" for a
missing level AND for a present level equal to 0 (which the falsiness guard
treats like a missing level), and "informational" for every other present
level below 3. -/
theorem c2_mapWazuhLevel_bands :
    mapWazuhLevel none = "low" ∧
    mapWazuhLevel (some 0) = "low" ∧
    (∀ l : Int, 12 ≤ l → mapWazuhLevel (some l) = "high") ∧
    (∀ l : Int, 7 ≤ l → l < 12 → mapWazuhLevel (some l) = "medium") ∧
    (∀ l : Int, 3 ≤ l → l < 7 → mapWazuhLevel (some l) = "low") ∧
    (∀ l : Int, l < 3 → l ≠ 0 → mapWazuhLevel (some l) = "informational") := by
  refine ⟨rfl, rfl, ?_, ?_, ?_, ?_⟩
  · intro l h
    simp only [mapWazuhLevel]
    split_ifs <;> first | rfl | omega
  · intro l h1 h2
    simp only [mapWazuhLevel]
    split_ifs <;> first | rfl | omega
  · intro l h1 h2
    simp only [mapWazuhLevel]
    split_ifs <;> first | rfl | omega
  · intro l h1 h2
    simp only [mapWazuhLevel]
    split_ifs <;> first | rfl | omega

/-- C2 witness: the amended band theorem applied at the concrete levels
15, 8, 5, 2 (and the spec examples 7 and missing). -/
theorem c2_mapWazuhLevel_bands_witness :
    mapWazuhLevel (some 15) = "high" ∧
    mapWazuhLevel (some 8) = "medium" ∧
    mapWazuhLevel (some 7) = "medium" ∧
    mapWazuhLevel (some 5) = "low" ∧
    mapWazuhLevel (some 2) = "informational" ∧
    mapWazuhLevel none = "low" :=
  ⟨c2_mapWazuhLevel_bands.2.2.1 15 (by decide),
   c2_mapWazuhLevel_bands.2.2.2.1 8 (by decide) (by decide),
   c2_mapWazuhLevel_bands.2.2.2.1 7 (by decide) (by decide),
   c2_mapWazuhLevel_bands.2.2.2.2.1 5 (by decide) (by decide),
   c2_mapWazuhLevel_bands.2.2.2.2.2 2 (by decide) (by decide),
   c2_mapWazuhLevel_bands.1⟩

/- ===================== Canonical event model ===================== -/

/-- Canonical process-creation record. -/
structure ProcessRec where
  timestamp : String
  processId : Option Int := none
  parentProcessId : Option Int := none
  image : Option String := none
  commandLine : Option String := none
  user : Option String := none
  processName : String
deriving DecidableEq, Repr

/-- Canonical network-connection record. -/
structure NetworkRec where
  timestamp : String
  sourceIp : Option String := none
  sourcePort : Option Int := none
  destinationIp : Option String := none
  destinationPort : Option Int := none
  protocol : Option String := none
  processId : Option Int := none
  image : Option String := none
  user : Option String := none
  processName : String
deriving DecidableEq, Repr

/-- Canonical file-activity record. -/
structure FileRec where
  timestamp : String
  filePath : Option String := none
  action : String
  activityType : String
  processId : Option Int := none
  image : Option String := none
  user : Option String := none
  processName : String
deriving DecidableEq, Repr

/-- Canonical DNS-query record. -/
structure DnsRec where
  timestamp : String
  queryName : Option String := none
  queryResults : Option String := none
  processId : Option Int := none
  image : Option String := none
  user : Option String := none
  processName : String
deriving DecidableEq, Repr

/-- Canonical threat record (Wazuh alerts and Defender detections). -/
structure ThreatRec where
  timestamp : String
  threatName : Option String := none
  rule : Option String := none
  severity : Option String := none
  filePath : Option String := none
  description : Option String := none
  threatType : String
  processName : String
deriving DecidableEq, Repr

/-- Canonical registry-change record (written by the Defender adapter,
never read by any detector). -/
structure RegistryRec where
  timestamp : String
  key : Option String := none
  valueName : Option String := none
  valueData : Option String := none
  processId : Option Int := none
  image : Option String := none
  user : Option String := none
  processName : String
deriving DecidableEq, Repr

/-- The per-run mutable dataset `this.parsedData`.  The source also declares
dllActivities and userActivities, but no adapter ever writes or reads them;
they are omitted. -/
structure ParsedData where
  processes : List ProcessRec := []
  networkConnections : List NetworkRec := []
  fileActivities : List FileRec := []
  registryChanges : List RegistryRec := []
  threats : List ThreatRec := []
  dnsQueries : List DnsRec := []
deriving DecidableEq, Repr

/-- The freshly reset dataset assigned at the top of every parseLogs call. -/
def emptyParsedData : ParsedData := {}

/-- An entry of bundle.aptPatterns.threatIndicators: the Sysmon/ELK/Defender
detectors push strings, while the Wazuh and Defender native-threat
projections push objects of shape
`{threatName, description, processName, severity}`. -/
inductive Indicator where
  | str (s : String)
  | threat (threatName : Option String) (description : Option String)
      (processName : String) (severity : Option String)
deriving DecidableEq, Repr

/-- `{ ...conn, process: processName }`. -/
structure NetOut extends NetworkRec where
  process : String
deriving DecidableEq, Repr

/-- `{ ...file, process: processName }`. -/
structure FileOut extends FileRec where
  process : String
deriving DecidableEq, Repr

/-- `{ ...dns, process: dns.processName }`. -/
structure DnsOut extends DnsRec where
  process : String
deriving DecidableEq, Repr

structure AptPatterns where
  threatIndicators : List Indicator
  attackChain : List String
deriving DecidableEq, Repr

structure FileMapPart where
  fileActivities : List FileOut
deriving DecidableEq, Repr

structure NetworkMapPart where
  connections : List NetOut
  dnsQueries : List DnsOut
deriving DecidableEq, Repr

/-- The visualization bundle returned by generateVisualizationData. -/
structure Bundle where
  aptPatterns : AptPatterns
  fileMap : FileMapPart
  networkMap : NetworkMapPart
deriving DecidableEq, Repr

/-- The bundle with every category list empty. -/
def emptyBundle : Bundle :=
  ⟨⟨[], []⟩, ⟨[]⟩, ⟨[], []⟩⟩

/-- The result of JSON.parse on one file content, by shape:
`arr` = a top-level array of events, `obj` = a single top-level object,
`lines` = whole-document parse fails but every line parses (the
line-delimited fallback only the ELK adapter attempts), `invalid` = not
JSON in any supported shape. -/
inductive SrcContent (α : Type) where
  | arr (events : List α)
  | obj (event : α)
  | lines (events : List α)
  | invalid

/-- Pass-through projection used by every detector for dns queries. -/
def mkDnsOut (d : DnsRec) : DnsOut :=
  { toDnsRec := d, process := d.processName }

/- ===================== Sysmon adapter (src/unnamed/part_000) ============ -/

/-- A raw Sysmon JSON event: exactly the fields the adapter reads. -/
structure SysmonEvent where
  EventID : Option Int := none
  UtcTime : Option String := none
  ProcessId : Option Int := none
  ParentProcessId : Option Int := none
  Image : Option String := none
  CommandLine : Option String := none
  User : Option String := none
  SourceIp : Option String := none
  SourcePort : Option Int := none
  DestinationIp : Option String := none
  DestinationPort : Option Int := none
  Protocol : Option String := none
  TargetFilename : Option String := none
  QueryName : Option String := none
  QueryResults : Option String := none
deriving DecidableEq, Repr

namespace Sysmon

/-- `event.Image ? event.Image.split('\\').pop() : 'N/A'` — note: the Sysmon
adapter splits on backslash only. -/
def nameOfImage (img : Option String) : String :=
  if strTruthy img then jsPopSplit '\\' (img.getD "") else "N/A"

/-- SysmonLogParser.processProcessCreation. -/
def processProcessCreation (now : String) (ds : ParsedData) (e : SysmonEvent) :
    ParsedData :=
  { ds with processes := ds.processes ++
      [{ timestamp := jsOrSD e.UtcTime now
         processId := e.ProcessId
         parentProcessId := e.ParentProcessId
         image := e.Image
         commandLine := e.CommandLine
         user := e.User
         processName := nameOfImage e.Image }] }

/-- SysmonLogParser.processNetworkConnection (no destination-IP guard). -/
def processNetworkConnection (now : String) (ds : ParsedData) (e : SysmonEvent) :
    ParsedData :=
  { ds with networkConnections := ds.networkConnections ++
      [{ timestamp := jsOrSD e.UtcTime now
         sourceIp := e.SourceIp
         sourcePort := e.SourcePort
         destinationIp := e.DestinationIp
         destinationPort := e.DestinationPort
         protocol := e.Protocol
         processId := e.ProcessId
         image := e.Image
         user := e.User
         processName := nameOfImage e.Image }] }

/-- The switch on EventID in SysmonLogParser.processFileActivity. -/
def fileActionOf (id : Option Int) : String :=
  if id = some 11 then "File Created"
  else if id = some 23 then "File Deleted"
  else if id = some 15 then "File Stream Created"
  else "EventID " ++ jsShowOI id

/-- SysmonLogParser.processFileActivity. -/
def processFileActivity (now : String) (ds : ParsedData) (e : SysmonEvent) :
    ParsedData :=
  { ds with fileActivities := ds.fileActivities ++
      [{ timestamp := jsOrSD e.UtcTime now
         filePath := e.TargetFilename
         action := fileActionOf e.EventID
         activityType := fileActionOf e.EventID
         processId := e.ProcessId
         image := e.Image
         user := e.User
         processName := nameOfImage e.Image }] }

/-- SysmonLogParser.processDnsQuery. -/
def processDnsQuery (now : String) (ds : ParsedData) (e : SysmonEvent) :
    ParsedData :=
  { ds with dnsQueries := ds.dnsQueries ++
      [{ timestamp := jsOrSD e.UtcTime now
         queryName := e.QueryName
         queryResults := e.QueryResults
         processId := e.ProcessId
         image := e.Image
         user := e.User
         processName := nameOfImage e.Image }] }

/-- SysmonLogParser.processSysmonEvent: dispatch on EventID. -/
def processSysmonEvent (now : String) (ds : ParsedData) (e : SysmonEvent) :
    ParsedData :=
  if e.EventID = some 1 then processProcessCreation now ds e
  else if e.EventID = some 3 then processNetworkConnection now ds e
  else if e.EventID = some 11 ∨ e.EventID = some 23 ∨ e.EventID = some 15 then
    processFileActivity now ds e
  else if e.EventID = some 22 then processDnsQuery now ds e
  else ds

/-- SysmonLogParser.parseSysmonLogs: only a top-level JSON array is
processed; an object, line-delimited content or invalid JSON is skipped
with an error signal. -/
def parseSysmonLogs (now : String) (ds : ParsedData)
    (c : SrcContent SysmonEvent) : ParsedData :=
  match c with
  | .arr events => events.foldl (processSysmonEvent now) ds
  | .obj _ => ds
  | .lines _ => ds
  | .invalid => ds

/-- SysmonLogParser.parseByFormat. -/
def parseByFormat (now : String) (ds : ParsedData)
    (c : SrcContent SysmonEvent) (format : String) : ParsedData :=
  if format = "sysmon" then parseSysmonLogs now ds c else ds

end Sysmon

/-- Result of the network-connection forEach in generateVisualizationData:
final step counter, pushed threat indicators, pushed attack-chain entries,
pushed connections. -/
structure NetLoopOut where
  step : Nat
  inds : List Indicator
  chain : List String
  conns : List NetOut
deriving DecidableEq, Repr

/-- Result of the file-activity forEach: `none` models the TypeError thrown
by `file.filePath.includes` when filePath is undefined. -/
structure FileLoopOut where
  step : Nat
  inds : List Indicator
  chain : List String
  outs : List FileOut
deriving DecidableEq, Repr

/-- C2 threat-indicator template, identical in the Sysmon, ELK and Defender
detectors. -/
def c2IndStr (c : NetworkRec) (pn : String) : String :=
  "Command and Control Connection: Outbound connection to C2 IP: " ++
    jsShowO c.destinationIp ++ ":" ++ jsShowOI c.destinationPort ++
    " (Process: " ++ pn ++ ")"

/-- C2 attack-chain template, identical in the Sysmon, ELK and Defender
detectors. -/
def c2ChainStr (step : Nat) (c : NetworkRec) (pn : String) : String :=
  toString step ++ ". Command and Control (C2): Suspicious network connection to " ++
    jsShowO c.destinationIp ++ ":" ++ jsShowOI c.destinationPort ++ " from " ++ pn

def smbIndStr (c : NetworkRec) (pn : String) : String :=
  "Lateral Movement - SMB: Internal SMB connection: " ++ jsShowO c.sourceIp ++
    " -> " ++ jsShowO c.destinationIp ++ " (Process: " ++ pn ++ ")"

def smbChainStr (step : Nat) (c : NetworkRec) : String :=
  toString step ++ ". Lateral Movement: Internal SMB connection from " ++
    jsShowO c.sourceIp ++ " to " ++ jsShowO c.destinationIp

def sysmonExfilIndStr (f : FileRec) (pn : String) : String :=
  "Exfiltration Staging: File created in temp for potential exfiltration: " ++
    jsShowO f.filePath ++ " (Process: " ++ pn ++ ") (User: " ++ jsShowO f.user ++ ")"

def sysmonExfilChainStr (step : Nat) (f : FileRec) : String :=
  toString step ++ ". Exfiltration: Data staged for exfiltration via " ++
    jsShowO f.filePath

def tamperIndStr (f : FileRec) (pn : String) : String :=
  "Evidence Tampering: File Deleted: " ++ jsShowO f.filePath ++ " (Process: " ++
    pn ++ ") (User: " ++ jsShowO f.user ++ ")"

def tamperChainStr (step : Nat) (f : FileRec) : String :=
  toString step ++ ". Evidence Tampering: File " ++ jsShowO f.filePath ++ " deleted"

namespace Sysmon

/-- The network forEach of SysmonLogParser.generateVisualizationData:
C2 indicator for a non-internal destination, SMB lateral-movement indicator
for an internal destination on port 445, pass-through otherwise. -/
def netLoop (step : Nat) : List NetworkRec → NetLoopOut
  | [] => ⟨step, [], [], []⟩
  | c :: rest =>
    let pn := jsOrStr c.processName "N/A"
    if isInternalIPO c.destinationIp = false then
      let o := netLoop (step + 1) rest
      ⟨o.step, .str (c2IndStr c pn) :: o.inds, c2ChainStr step c pn :: o.chain,
        ⟨c, pn⟩ :: o.conns⟩
    else if isInternalIPO c.destinationIp = true ∧ c.destinationPort = some 445 then
      let o := netLoop (step + 1) rest
      ⟨o.step, .str (smbIndStr c pn) :: o.inds, smbChainStr step c :: o.chain,
        ⟨c, pn⟩ :: o.conns⟩
    else
      let o := netLoop step rest
      ⟨o.step, o.inds, o.chain, ⟨c, pn⟩ :: o.conns⟩

/-- The file forEach of SysmonLogParser.generateVisualizationData.
`file.filePath.includes('Temp')` is reached whenever action is
"File Created"; with an undefined filePath it throws (modelled as none). -/
def fileLoop (step : Nat) : List FileRec → Option FileLoopOut
  | [] => some ⟨step, [], [], []⟩
  | f :: rest =>
    let pn := jsOrStr f.processName "N/A"
    if f.action = "File Created" then
      match f.filePath with
      | none => none
      | some p =>
        if strHasSub p "Temp" then
          (fileLoop (step + 1) rest).map fun o =>
            ⟨o.step, .str (sysmonExfilIndStr f pn) :: o.inds,
              sysmonExfilChainStr step f :: o.chain, ⟨f, pn⟩ :: o.outs⟩
        else
          (fileLoop step rest).map fun o =>
            ⟨o.step, o.inds, o.chain, ⟨f, pn⟩ :: o.outs⟩
    else if f.action = "File Deleted" then
      (fileLoop (step + 1) rest).map fun o =>
        ⟨o.step, .str (tamperIndStr f pn) :: o.inds,
          tamperChainStr step f :: o.chain, ⟨f, pn⟩ :: o.outs⟩
    else
      (fileLoop step rest).map fun o =>
        ⟨o.step, o.inds, o.chain, ⟨f, pn⟩ :: o.outs⟩

/-- SysmonLogParser.generateVisualizationData.  `none` models the TypeError
escaping the call. -/
def generateVisualizationData (ds : ParsedData) : Option Bundle :=
  match fileLoop (netLoop 1 ds.networkConnections).step ds.fileActivities with
  | none => none
  | some fo =>
    some ⟨⟨(netLoop 1 ds.networkConnections).inds ++ fo.inds,
           (netLoop 1 ds.networkConnections).chain ++ fo.chain⟩,
          ⟨fo.outs⟩,
          ⟨(netLoop 1 ds.networkConnections).conns, ds.dnsQueries.map mkDnsOut⟩⟩

/-- SysmonLogParser.parseLogs: reset the instance dataset (discarding
`prior`), fold the files through parseByFormat, return the new instance
state and the visualization bundle. -/
def parseLogs (prior : ParsedData) (now : String)
    (files : List (SrcContent SysmonEvent)) (format : String) :
    ParsedData × Option Bundle :=
  let _ := prior
  let ds := files.foldl (fun d c => parseByFormat now d c format) emptyParsedData
  (ds, generateVisualizationData ds)

end Sysmon

/- ===================== ELK adapter (src/elk-parser.js, ElkLogParser) ===== -/

/-- A raw ELK event.  Optional-chained nested reads in the source
(`event.process?.pid`, `event.destination?.ip`, `event.dns?.question?.name`,
etc.) are flattened to one optional field per chained path; `@timestamp`
becomes `atTimestamp`; `event.event?.action` becomes `event_action`;
`event.dns?.answers` (an array of objects with a `data` field) becomes the
list of those data strings. -/
structure ElkEvent where
  atTimestamp : Option String := none
  UtcTime : Option String := none
  Image : Option String := none
  process_executable : Option String := none
  InitiatingProcessFileName : Option String := none
  ProcessId : Option Int := none
  process_pid : Option Int := none
  InitiatingProcessId : Option Int := none
  ParentProcessId : Option Int := none
  process_parent_pid : Option Int := none
  InitiatingProcessParentId : Option Int := none
  CommandLine : Option String := none
  process_command_line : Option String := none
  InitiatingProcessCommandLine : Option String := none
  User : Option String := none
  user_name : Option String := none
  UserName : Option String := none
  DestinationIp : Option String := none
  destination_ip : Option String := none
  SourceIp : Option String := none
  source_ip : Option String := none
  SourcePort : Option Int := none
  source_port : Option Int := none
  DestinationPort : Option Int := none
  destination_port : Option Int := none
  Protocol : Option String := none
  network_protocol : Option String := none
  EventID : Option Int := none
  TargetFilename : Option String := none
  file_path : Option String := none
  event_action : Option String := none
  QueryName : Option String := none
  dns_question_name : Option String := none
  QueryResults : Option String := none
  dns_answers : Option (List String) := none
deriving DecidableEq, Repr

/-- One entry of an ELK export: `log._source || log` picks the `_source`
object when present, else the log object itself. -/
structure ElkLog where
  src : Option ElkEvent := none
  self : ElkEvent
deriving DecidableEq, Repr

namespace Elk

def eventOf (l : ElkLog) : ElkEvent :=
  l.src.getD l.self

/-- `event['@timestamp'] || event.UtcTime || new Date().toISOString()`. -/
def timestampOf (now : String) (e : ElkEvent) : String :=
  jsOrSD (jsOrS e.atTimestamp e.UtcTime) now

/-- `event.Image || event.process?.executable || event.InitiatingProcessFileName`. -/
def procImage (e : ElkEvent) : Option String :=
  jsOrS (jsOrS e.Image e.process_executable) e.InitiatingProcessFileName

/-- `event.ProcessId || event.process?.pid || event.InitiatingProcessId`. -/
def procId (e : ElkEvent) : Option Int :=
  jsOrI (jsOrI e.ProcessId e.process_pid) e.InitiatingProcessId

/-- `img.split('\\').pop().split('/').pop()` with the 'N/A' default used at
the network/file/dns sites; at the process site the image is known truthy,
where this equals the split expression of the source. -/
def nameOfImage (img : Option String) : String :=
  if strTruthy img then jsPopSplit '/' (jsPopSplit '\\' (img.getD "")) else "N/A"

/-- `event.Image || event.process?.executable` (network/file/dns sites). -/
def connImage (e : ElkEvent) : Option String :=
  jsOrS e.Image e.process_executable

/-- Process-creation block of ElkLogParser.processGenericEvent. -/
def procPart (now : String) (ds : ParsedData) (e : ElkEvent) : ParsedData :=
  if strTruthy (procImage e) = true ∧ intTruthy (procId e) = true then
    { ds with processes := ds.processes ++
        [{ timestamp := timestampOf now e
           processId := procId e
           parentProcessId :=
             jsOrI (jsOrI e.ParentProcessId e.process_parent_pid)
               e.InitiatingProcessParentId
           image := procImage e
           commandLine :=
             jsOrS (jsOrS e.CommandLine e.process_command_line)
               e.InitiatingProcessCommandLine
           user := jsOrS (jsOrS e.User e.user_name) e.UserName
           processName := nameOfImage (procImage e) }] }
  else ds

/-- Network-connection block: gated on a truthy destination IP. -/
def netPart (now : String) (ds : ParsedData) (e : ElkEvent) : ParsedData :=
  if strTruthy (jsOrS e.DestinationIp e.destination_ip) = true then
    { ds with networkConnections := ds.networkConnections ++
        [{ timestamp := timestampOf now e
           sourceIp := jsOrS e.SourceIp e.source_ip
           sourcePort := jsOrI e.SourcePort e.source_port
           destinationIp := jsOrS e.DestinationIp e.destination_ip
           destinationPort := jsOrI e.DestinationPort e.destination_port
           protocol := jsOrS e.Protocol e.network_protocol
           processId := jsOrI e.ProcessId e.process_pid
           image := connImage e
           user := jsOrS e.User e.user_name
           processName := nameOfImage (connImage e) }] }
  else ds

/-- The action label of the file-activity block: EventID 11, then 23, then
an explicit `event.event?.action`, else the initial "File Activity". -/
def fileActionOf (e : ElkEvent) : String :=
  if e.EventID = some 11 then "File Created"
  else if e.EventID = some 23 then "File Deleted"
  else if strTruthy e.event_action then e.event_action.getD ""
  else "File Activity"

/-- File-activity block: gated on a truthy file path. -/
def filePart (now : String) (ds : ParsedData) (e : ElkEvent) : ParsedData :=
  if strTruthy (jsOrS e.TargetFilename e.file_path) = true then
    { ds with fileActivities := ds.fileActivities ++
        [{ timestamp := timestampOf now e
           filePath := jsOrS e.TargetFilename e.file_path
           action := fileActionOf e
           activityType := fileActionOf e
           processId := jsOrI e.ProcessId e.process_pid
           image := connImage e
           user := jsOrS e.User e.user_name
           processName := nameOfImage (connImage e) }] }
  else ds

/-- `event.QueryResults || (event.dns?.answers ? answers.map(a=>a.data).join(', ') : 'N/A')`.
An empty answers array is truthy in JS, so a present empty list joins to "". -/
def dnsResultsOf (e : ElkEvent) : String :=
  if strTruthy e.QueryResults then e.QueryResults.getD ""
  else
    match e.dns_answers with
    | some l => String.intercalate ", " l
    | none => "N/A"

/-- DNS-query block: gated on a truthy query name. -/
def dnsPart (now : String) (ds : ParsedData) (e : ElkEvent) : ParsedData :=
  if strTruthy (jsOrS e.QueryName e.dns_question_name) = true then
    { ds with dnsQueries := ds.dnsQueries ++
        [{ timestamp := timestampOf now e
           queryName := jsOrS e.QueryName e.dns_question_name
           queryResults := some (dnsResultsOf e)
           processId := jsOrI e.ProcessId e.process_pid
           image := connImage e
           user := jsOrS e.User e.user_name
           processName := nameOfImage (connImage e) }] }
  else ds

/-- ElkLogParser.processGenericEvent: the four blocks in source order. -/
def processGenericEvent (now : String) (ds : ParsedData) (e : ElkEvent) :
    ParsedData :=
  dnsPart now (filePart now (netPart now (procPart now ds e) e) e) e

/-- ElkLogParser.parseELKLogs: a top-level array is processed as is, a
single object is wrapped into a one-element array, and on whole-document
parse failure the line-delimited fallback is attempted; only when that also
fails is the file skipped. -/
def parseELKLogs (now : String) (ds : ParsedData) (c : SrcContent ElkLog) :
    ParsedData :=
  match c with
  | .arr logs => logs.foldl (fun d l => processGenericEvent now d (eventOf l)) ds
  | .obj l => [l].foldl (fun d l => processGenericEvent now d (eventOf l)) ds
  | .lines logs => logs.foldl (fun d l => processGenericEvent now d (eventOf l)) ds
  | .invalid => ds

/-- ElkLogParser.parseByFormat. -/
def parseByFormat (now : String) (ds : ParsedData) (c : SrcContent ElkLog)
    (format : String) : ParsedData :=
  if format = "elk" then parseELKLogs now ds c else ds

end Elk

/-- The network forEach shared verbatim by ElkLogParser and
DefenderLogParser .generateVisualizationData: C2 indicator for a
non-internal destination, pass-through otherwise (no SMB rule). -/
def c2NetLoop (step : Nat) : List NetworkRec → NetLoopOut
  | [] => ⟨step, [], [], []⟩
  | c :: rest =>
    let pn := jsOrStr c.processName "N/A"
    if isInternalIPO c.destinationIp = false then
      let o := c2NetLoop (step + 1) rest
      ⟨o.step, .str (c2IndStr c pn) :: o.inds, c2ChainStr step c pn :: o.chain,
        ⟨c, pn⟩ :: o.conns⟩
    else
      let o := c2NetLoop step rest
      ⟨o.step, o.inds, o.chain, ⟨c, pn⟩ :: o.conns⟩

/-- The `{threatName, description, processName, severity}` projection pushed
into threatIndicators by the Wazuh and Defender detectors. -/
def threatProj (t : ThreatRec) : Indicator :=
  .threat t.threatName t.description t.processName t.severity

namespace Elk

/-- ElkLogParser.generateVisualizationData (total: no throwing path). -/
def generateVisualizationData (ds : ParsedData) : Bundle :=
  ⟨⟨(c2NetLoop 1 ds.networkConnections).inds, (c2NetLoop 1 ds.networkConnections).chain⟩,
   ⟨ds.fileActivities.map fun f => ⟨f, jsOrStr f.processName "N/A"⟩⟩,
   ⟨(c2NetLoop 1 ds.networkConnections).conns, ds.dnsQueries.map mkDnsOut⟩⟩

/-- ElkLogParser.parseLogs. -/
def parseLogs (prior : ParsedData) (now : String)
    (files : List (SrcContent ElkLog)) (format : String) :
    ParsedData × Bundle :=
  let _ := prior
  let ds := files.foldl (fun d c => parseByFormat now d c format) emptyParsedData
  (ds, generateVisualizationData ds)

end Elk

/- ============== Defender adapter (src/elk-parser.js, DefenderLogParser) == -/

/-- A raw Defender JSON event: exactly the fields the adapter reads. -/
structure DefenderEvent where
  TimeGenerated : Option String := none
  EventType : Option String := none
  InitiatingProcessFileName : Option String := none
  UserName : Option String := none
  InitiatingProcessId : Option Int := none
  InitiatingProcessParentId : Option Int := none
  InitiatingProcessCommandLine : Option String := none
  SourceIp : Option String := none
  SourcePort : Option Int := none
  DestinationIp : Option String := none
  DestinationPort : Option Int := none
  Protocol : Option String := none
  FileName : Option String := none
  FolderPath : Option String := none
  QueryName : Option String := none
  QueryResults : Option String := none
  ThreatName : Option String := none
  Severity : Option String := none
  RegistryKey : Option String := none
  RegistryValueName : Option String := none
  RegistryValueData : Option String := none
deriving DecidableEq, Repr

namespace Defender

/-- The per-event dispatch body of DefenderLogParser.parseDefenderLogs:
`processName = event.InitiatingProcessFileName || 'N/A'` (taken verbatim,
no path splitting), `user = event.UserName || 'N/A'`, then a chain of
strict string comparisons on EventType. -/
def processDefenderEvent (now : String) (ds : ParsedData) (e : DefenderEvent) :
    ParsedData :=
  let ts := jsOrSD e.TimeGenerated now
  let pn := jsOrSD e.InitiatingProcessFileName "N/A"
  let usr := jsOrSD e.UserName "N/A"
  if e.EventType = some "ProcessCreated" then
    { ds with processes := ds.processes ++
        [{ timestamp := ts
           processId := e.InitiatingProcessId
           parentProcessId := e.InitiatingProcessParentId
           image := e.InitiatingProcessFileName
           commandLine := e.InitiatingProcessCommandLine
           user := some usr
           processName := pn }] }
  else if e.EventType = some "NetworkConnection" then
    { ds with networkConnections := ds.networkConnections ++
        [{ timestamp := ts
           sourceIp := e.SourceIp
           sourcePort := e.SourcePort
           destinationIp := e.DestinationIp
           destinationPort := e.DestinationPort
           protocol := e.Protocol
           processId := e.InitiatingProcessId
           image := e.InitiatingProcessFileName
           user := some usr
           processName := pn }] }
  else if e.EventType = some "FileCreated" ∨ e.EventType = some "FileDeleted" then
    { ds with fileActivities := ds.fileActivities ++
        [{ timestamp := ts
           filePath := jsOrS e.FileName e.FolderPath
           action := if e.EventType = some "FileCreated" then "File Created"
                     else "File Deleted"
           activityType := if e.EventType = some "FileCreated" then "FileCreated"
                           else "FileDeleted"
           processId := e.InitiatingProcessId
           image := e.InitiatingProcessFileName
           user := some usr
           processName := pn }] }
  else if e.EventType = some "DnsQuery" then
    { ds with dnsQueries := ds.dnsQueries ++
        [{ timestamp := ts
           queryName := e.QueryName
           queryResults := e.QueryResults
           processId := e.InitiatingProcessId
           image := e.InitiatingProcessFileName
           user := some usr
           processName := pn }] }
  else if e.EventType = some "Detection" then
    { ds with threats := ds.threats ++
        [{ timestamp := ts
           threatName := e.ThreatName
           severity := e.Severity
           filePath := jsOrS e.FileName e.FolderPath
           description := e.ThreatName
           threatType := "defender_detection"
           processName := jsOrSD e.InitiatingProcessFileName pn }] }
  else if e.EventType = some "RegistryValueSet" then
    { ds with registryChanges := ds.registryChanges ++
        [{ timestamp := ts
           key := e.RegistryKey
           valueName := e.RegistryValueName
           valueData := e.RegistryValueData
           processId := e.InitiatingProcessId
           image := e.InitiatingProcessFileName
           user := some usr
           processName := pn }] }
  else ds

/-- DefenderLogParser.parseDefenderLogs: only a top-level JSON array is
processed; anything else is skipped with an error signal. -/
def parseDefenderLogs (now : String) (ds : ParsedData)
    (c : SrcContent DefenderEvent) : ParsedData :=
  match c with
  | .arr events => events.foldl (processDefenderEvent now) ds
  | .obj _ => ds
  | .lines _ => ds
  | .invalid => ds

/-- DefenderLogParser.parseByFormat. -/
def parseByFormat (now : String) (ds : ParsedData)
    (c : SrcContent DefenderEvent) (format : String) : ParsedData :=
  if format = "defender" then parseDefenderLogs now ds c else ds

def exfilIndStr (f : FileRec) (pn : String) : String :=
  "Exfiltration Staging: File created in temp: " ++ jsShowO f.filePath ++
    " (Process: " ++ pn ++ ")"

def exfilChainStr (step : Nat) (f : FileRec) : String :=
  toString step ++ ". Exfiltration: Data staged in " ++ jsShowO f.filePath

/-- The file forEach of DefenderLogParser.generateVisualizationData.
`file.filePath.includes('Temp')` is reached whenever action is
"File Created"; with an undefined filePath it throws (modelled as none). -/
def fileLoop (step : Nat) : List FileRec → Option FileLoopOut
  | [] => some ⟨step, [], [], []⟩
  | f :: rest =>
    let pn := jsOrStr f.processName "N/A"
    if f.action = "File Created" then
      match f.filePath with
      | none => none
      | some p =>
        if strHasSub p "Temp" then
          (fileLoop (step + 1) rest).map fun o =>
            ⟨o.step, .str (exfilIndStr f pn) :: o.inds,
              exfilChainStr step f :: o.chain, ⟨f, pn⟩ :: o.outs⟩
        else
          (fileLoop step rest).map fun o =>
            ⟨o.step, o.inds, o.chain, ⟨f, pn⟩ :: o.outs⟩
    else
      (fileLoop step rest).map fun o =>
        ⟨o.step, o.inds, o.chain, ⟨f, pn⟩ :: o.outs⟩

/-- DefenderLogParser.generateVisualizationData: C2 network loop, Temp
file-staging loop, then every native threat appended to threatIndicators
(and only there — no attack-chain entry). -/
def generateVisualizationData (ds : ParsedData) : Option Bundle :=
  match fileLoop (c2NetLoop 1 ds.networkConnections).step ds.fileActivities with
  | none => none
  | some fo =>
    some ⟨⟨(c2NetLoop 1 ds.networkConnections).inds ++ fo.inds ++
             ds.threats.map threatProj,
           (c2NetLoop 1 ds.networkConnections).chain ++ fo.chain⟩,
          ⟨fo.outs⟩,
          ⟨(c2NetLoop 1 ds.networkConnections).conns, ds.dnsQueries.map mkDnsOut⟩⟩

/-- DefenderLogParser.parseLogs. -/
def parseLogs (prior : ParsedData) (now : String)
    (files : List (SrcContent DefenderEvent)) (format : String) :
    ParsedData × Option Bundle :=
  let _ := prior
  let ds := files.foldl (fun d c => parseByFormat now d c format) emptyParsedData
  (ds, generateVisualizationData ds)

end Defender

/- ============== Wazuh adapter (src/wazuh-parser.js, WazuhLogParser) ====== -/

/-- A raw Wazuh alert.  Optional-chained nested reads
(`alert.rule.id`, `alert.data.audit?.event?.process?.name`, ...) are
flattened to one optional field per chained path. -/
structure WazuhAlert where
  timestamp : Option String := none
  rule_id : Option String := none
  rule_description : Option String := none
  rule_level : Option Int := none
  full_log : Option String := none
  data_command : Option String := none
  audit_file : Option String := none
  audit_action : Option String := none
  audit_process_pid : Option Int := none
  audit_process_name : Option String := none
  audit_user : Option String := none
deriving DecidableEq, Repr

namespace Wazuh

/-- The per-alert body of WazuhLogParser.parseWazuhLogs: a ThreatEvent for
every alert with a truthy rule id and description, and separately a
file-activity record for file-integrity-monitor sub-events carrying both a
file and an action. -/
def processWazuhAlert (now : String) (ds : ParsedData) (a : WazuhAlert) :
    ParsedData :=
  let ts := jsOrSD a.timestamp now
  let ds1 :=
    if strTruthy a.rule_id = true ∧ strTruthy a.rule_description = true then
      { ds with threats := ds.threats ++
          [{ timestamp := ts
             threatName := a.rule_description
             rule := a.rule_id
             severity := some (mapWazuhLevel a.rule_level)
             description := jsOrS a.full_log a.rule_description
             threatType := "wazuh_alert"
             processName := jsOrSD (jsOrS a.audit_process_name a.data_command) "N/A" }] }
    else ds
  if strTruthy a.audit_file = true ∧ strTruthy a.audit_action = true then
    { ds1 with fileActivities := ds1.fileActivities ++
        [{ timestamp := ts
           filePath := a.audit_file
           action := a.audit_action.getD ""
           activityType := "wazuh-fim-" ++ a.audit_action.getD ""
           processId := a.audit_process_pid
           image := a.audit_process_name
           user := a.audit_user
           processName := jsOrSD a.audit_process_name "N/A" }] }
  else ds1

/-- WazuhLogParser.parseWazuhLogs: only a top-level JSON array is processed. -/
def parseWazuhLogs (now : String) (ds : ParsedData) (c : SrcContent WazuhAlert) :
    ParsedData :=
  match c with
  | .arr alerts => alerts.foldl (processWazuhAlert now) ds
  | .obj _ => ds
  | .lines _ => ds
  | .invalid => ds

/-- WazuhLogParser.parseByFormat. -/
def parseByFormat (now : String) (ds : ParsedData) (c : SrcContent WazuhAlert)
    (format : String) : ParsedData :=
  if format = "wazuh" then parseWazuhLogs now ds c else ds

/-- Result of the threats forEach of WazuhLogParser.generateVisualizationData. -/
structure ThreatLoopOut where
  step : Nat
  inds : List Indicator
  chain : List String
deriving DecidableEq, Repr

def threatChainStr (step : Nat) (t : ThreatRec) : String :=
  toString step ++ ". " ++ jsShowO t.threatName ++ ": " ++ jsShowO t.description

/-- The threats forEach: one indicator object and one numbered attack-chain
entry per threat, unconditionally. -/
def threatLoop (step : Nat) : List ThreatRec → ThreatLoopOut
  | [] => ⟨step, [], []⟩
  | t :: rest =>
    let o := threatLoop (step + 1) rest
    ⟨o.step, threatProj t :: o.inds, threatChainStr step t :: o.chain⟩

/-- WazuhLogParser.generateVisualizationData (total: no throwing path). -/
def generateVisualizationData (ds : ParsedData) : Bundle :=
  ⟨⟨(threatLoop 1 ds.threats).inds, (threatLoop 1 ds.threats).chain⟩,
   ⟨ds.fileActivities.map fun f => ⟨f, jsOrStr f.processName "N/A"⟩⟩,
   ⟨ds.networkConnections.map fun c => ⟨c, jsOrStr c.processName "N/A"⟩,
    ds.dnsQueries.map mkDnsOut⟩⟩

/-- WazuhLogParser.parseLogs. -/
def parseLogs (prior : ParsedData) (now : String)
    (files : List (SrcContent WazuhAlert)) (format : String) :
    ParsedData × Bundle :=
  let _ := prior
  let ds := files.foldl (fun d c => parseByFormat now d c format) emptyParsedData
  (ds, generateVisualizationData ds)

end Wazuh

/- ===================== Helper lemmas ===================== -/

theorem elk_procPart_others (now : String) (ds : ParsedData) (e : ElkEvent) :
    (Elk.procPart now ds e).networkConnections = ds.networkConnections ∧
    (Elk.procPart now ds e).fileActivities = ds.fileActivities ∧
    (Elk.procPart now ds e).dnsQueries = ds.dnsQueries ∧
    (Elk.procPart now ds e).threats = ds.threats := by
  simp only [Elk.procPart]
  split <;> exact ⟨rfl, rfl, rfl, rfl⟩

theorem elk_netPart_others (now : String) (ds : ParsedData) (e : ElkEvent) :
    (Elk.netPart now ds e).processes = ds.processes ∧
    (Elk.netPart now ds e).fileActivities = ds.fileActivities ∧
    (Elk.netPart now ds e).dnsQueries = ds.dnsQueries ∧
    (Elk.netPart now ds e).threats = ds.threats := by
  simp only [Elk.netPart]
  split <;> exact ⟨rfl, rfl, rfl, rfl⟩

theorem elk_filePart_others (now : String) (ds : ParsedData) (e : ElkEvent) :
    (Elk.filePart now ds e).processes = ds.processes ∧
    (Elk.filePart now ds e).networkConnections = ds.networkConnections ∧
    (Elk.filePart now ds e).dnsQueries = ds.dnsQueries ∧
    (Elk.filePart now ds e).threats = ds.threats := by
  simp only [Elk.filePart]
  split <;> exact ⟨rfl, rfl, rfl, rfl⟩

theorem elk_dnsPart_others (now : String) (ds : ParsedData) (e : ElkEvent) :
    (Elk.dnsPart now ds e).processes = ds.processes ∧
    (Elk.dnsPart now ds e).networkConnections = ds.networkConnections ∧
    (Elk.dnsPart now ds e).fileActivities = ds.fileActivities ∧
    (Elk.dnsPart now ds e).threats = ds.threats := by
  simp only [Elk.dnsPart]
  split <;> exact ⟨rfl, rfl, rfl, rfl⟩

/- ===================== C1 ===================== -/

/-- C1 (counterexample): the Sysmon adapter splits the image path only on
backslash, so the emitted process record for image `/usr/bin/bash` has
processName `/usr/bin/bash`, not the final segment `bash` that splitting on
both separators would give. -/
theorem c1_counterexample :
    (Sysmon.processSysmonEvent "T" emptyParsedData
        { EventID := some 1, Image := some "/usr/bin/bash" }).processes.map
        (fun r => r.processName) = ["/usr/bin/bash"] ∧
    jsPopSplit '/' (jsPopSplit '\\' "/usr/bin/bash") = "bash" ∧
    ("/usr/bin/bash" : String) ≠ "bash" := by
  refine ⟨by decide, by decide, by decide⟩

/-- C1 (amended): processName derivation is adapter-specific.  The ELK
adapter takes the final path segment after splitting on backslash and then
on slash (so `C:\Windows\System32\cmd.exe` gives `cmd.exe` and
`/usr/bin/bash` gives `bash`), with literal default `N/A`; the Sysmon
adapter splits on backslash only (so `/usr/bin/bash` stays whole), with
default `N/A`; the Defender adapter copies InitiatingProcessFileName
verbatim with default `N/A`. -/
theorem c1_amended :
    (∀ (now : String) (ds : ParsedData) (e : SysmonEvent),
        (Sysmon.processSysmonEvent now ds e).processes.map (fun r => r.processName) =
          ds.processes.map (fun r => r.processName) ++
            (if e.EventID = some 1 then [Sysmon.nameOfImage e.Image] else [])) ∧
    Sysmon.nameOfImage (some "C:\\Windows\\System32\\cmd.exe") = "cmd.exe" ∧
    Sysmon.nameOfImage (some "/usr/bin/bash") = "/usr/bin/bash" ∧
    Sysmon.nameOfImage none = "N/A" ∧
    Sysmon.nameOfImage (some "") = "N/A" ∧
    (∀ (now : String) (ds : ParsedData) (e : ElkEvent),
        (Elk.processGenericEvent now ds e).processes.map (fun r => r.processName) =
          ds.processes.map (fun r => r.processName) ++
            (if strTruthy (Elk.procImage e) = true ∧ intTruthy (Elk.procId e) = true
             then [Elk.nameOfImage (Elk.procImage e)] else [])) ∧
    Elk.nameOfImage (some "C:\\Windows\\System32\\cmd.exe") = "cmd.exe" ∧
    Elk.nameOfImage (some "/usr/bin/bash") = "bash" ∧
    Elk.nameOfImage none = "N/A" ∧
    (∀ (now : String) (ds : ParsedData) (e : DefenderEvent),
        (Defender.processDefenderEvent now ds e).processes.map (fun r => r.processName) =
          ds.processes.map (fun r => r.processName) ++
            (if e.EventType = some "ProcessCreated"
             then [jsOrSD e.InitiatingProcessFileName "N/A"] else [])) := by
  refine ⟨?_, by decide, by decide, by decide, by decide, ?_, by decide, by decide,
    by decide, ?_⟩
  · intro now ds e
    simp only [Sysmon.processSysmonEvent]
    split_ifs with h1 h2 h3 h4 <;>
      simp [Sysmon.processProcessCreation, Sysmon.processNetworkConnection,
        Sysmon.processFileActivity, Sysmon.processDnsQuery]
  · intro now ds e
    simp only [Elk.processGenericEvent]
    rw [(elk_dnsPart_others now _ e).1, (elk_filePart_others now _ e).1,
      (elk_netPart_others now _ e).1]
    simp only [Elk.procPart]
    split_ifs with h <;> simp
  · intro now ds e
    simp only [Defender.processDefenderEvent]
    split_ifs with h1 h2 h3 h4 h5 h6 <;> simp

/- ===================== C3 ===================== -/

/-- C3 (counterexample): the Sysmon adapter does not treat a single JSON
object as a one-element batch: the same event produces a network record
when wrapped in an array but nothing as a bare object. -/
theorem c3_counterexample :
    Sysmon.parseSysmonLogs "T" emptyParsedData
        (SrcContent.obj { EventID := some 3, DestinationIp := some "8.8.8.8" }) =
      emptyParsedData ∧
    (Sysmon.parseSysmonLogs "T" emptyParsedData
        (SrcContent.arr [{ EventID := some 3, DestinationIp := some "8.8.8.8" }])).networkConnections ≠
      [] := by
  refine ⟨rfl, by decide⟩

/-- C3 (amended): only the ELK adapter treats a single top-level JSON
object as a one-element batch; the Sysmon, Defender and Wazuh adapters
require a top-level JSON array and skip the file (with an error signal)
when the document is a single object. -/
theorem c3_amended :
    (∀ (now : String) (ds : ParsedData) (l : ElkLog),
        Elk.parseELKLogs now ds (SrcContent.obj l) =
          Elk.parseELKLogs now ds (SrcContent.arr [l])) ∧
    (∀ (now : String) (ds : ParsedData) (e : SysmonEvent),
        Sysmon.parseSysmonLogs now ds (SrcContent.obj e) = ds) ∧
    (∀ (now : String) (ds : ParsedData) (e : DefenderEvent),
        Defender.parseDefenderLogs now ds (SrcContent.obj e) = ds) ∧
    (∀ (now : String) (ds : ParsedData) (a : WazuhAlert),
        Wazuh.parseWazuhLogs now ds (SrcContent.obj a) = ds) :=
  ⟨fun _ _ _ => rfl, fun _ _ _ => rfl, fun _ _ _ => rfl, fun _ _ _ => rfl⟩

/- ===================== C6 ===================== -/

/-- C6 (counterexample): the Sysmon adapter emits a network-connection
record for any EventID 3 event, even one carrying no destination IP at all
(the record is emitted with destinationIp undefined). -/
theorem c6_counterexample :
    (Sysmon.processSysmonEvent "T" emptyParsedData
        { EventID := some 3 }).networkConnections.map (fun r => r.destinationIp) =
      [none] ∧
    ({ EventID := some 3 } : SysmonEvent).DestinationIp = none := by
  refine ⟨by decide, rfl⟩

/-- C6 (amended): each adapter gates emission on its own discriminant.  The
ELK adapter requires a truthy destination IP for a network record, a truthy
file path for a file record and a truthy query name for a DNS record; the
Sysmon adapter emits a network record exactly when EventID is 3, and the
Defender adapter exactly when EventType is "NetworkConnection", regardless
of whether a destination IP is present. -/
theorem c6_amended :
    (∀ (now : String) (ds : ParsedData) (e : ElkEvent),
        (Elk.processGenericEvent now ds e).networkConnections.length =
          ds.networkConnections.length +
            (if strTruthy (jsOrS e.DestinationIp e.destination_ip) = true then 1 else 0)) ∧
    (∀ (now : String) (ds : ParsedData) (e : SysmonEvent),
        (Sysmon.processSysmonEvent now ds e).networkConnections.length =
          ds.networkConnections.length + (if e.EventID = some 3 then 1 else 0)) ∧
    (∀ (now : String) (ds : ParsedData) (e : DefenderEvent),
        (Defender.processDefenderEvent now ds e).networkConnections.length =
          ds.networkConnections.length +
            (if e.EventType = some "NetworkConnection" then 1 else 0)) ∧
    (∀ (now : String) (ds : ParsedData) (e : ElkEvent),
        (Elk.processGenericEvent now ds e).fileActivities.length =
          ds.fileActivities.length +
            (if strTruthy (jsOrS e.TargetFilename e.file_path) = true then 1 else 0)) ∧
    (∀ (now : String) (ds : ParsedData) (e : ElkEvent),
        (Elk.processGenericEvent now ds e).dnsQueries.length =
          ds.dnsQueries.length +
            (if strTruthy (jsOrS e.QueryName e.dns_question_name) = true then 1 else 0)) := by
  refine ⟨?_, ?_, ?_, ?_, ?_⟩
  · intro now ds e
    simp only [Elk.processGenericEvent]
    rw [(elk_dnsPart_others now _ e).2.1, (elk_filePart_others now _ e).2.1]
    simp only [Elk.netPart, (elk_procPart_others now ds e).1]
    split_ifs with h <;> simp [(elk_procPart_others now ds e).1]
  · intro now ds e
    simp only [Sysmon.processSysmonEvent]
    split_ifs with h1 h2 h3 h4 <;>
      simp_all [Sysmon.processProcessCreation, Sysmon.processNetworkConnection,
        Sysmon.processFileActivity, Sysmon.processDnsQuery]
  · intro now ds e
    simp only [Defender.processDefenderEvent]
    split_ifs with h1 h2 h3 h4 h5 h6 <;> simp_all
  · intro now ds e
    simp only [Elk.processGenericEvent]
    rw [(elk_dnsPart_others now _ e).2.2.1]
    simp only [Elk.filePart, (elk_netPart_others now _ e).2.1,
      (elk_procPart_others now ds e).2.1]
    split_ifs with h <;>
      simp [(elk_netPart_others now _ e).2.1, (elk_procPart_others now ds e).2.1]
  · intro now ds e
    simp only [Elk.processGenericEvent]
    simp only [Elk.dnsPart, (elk_filePart_others now _ e).2.2.1,
      (elk_netPart_others now _ e).2.2.1, (elk_procPart_others now ds e).2.2.1]
    split_ifs with h <;>
      simp [(elk_filePart_others now _ e).2.2.1, (elk_netPart_others now _ e).2.2.1,
        (elk_procPart_others now ds e).2.2.1]

/- ===================== C4 ===================== -/

/-- What the Sysmon network loop emits for one connection: a C2 indicator
for a non-internal destination, an SMB lateral-movement indicator for an
internal destination on port 445, nothing otherwise. -/
def sysmonNetInd (c : NetworkRec) : Option Indicator :=
  if isInternalIPO c.destinationIp = false then
    some (.str (c2IndStr c (jsOrStr c.processName "N/A")))
  else if isInternalIPO c.destinationIp = true ∧ c.destinationPort = some 445 then
    some (.str (smbIndStr c (jsOrStr c.processName "N/A")))
  else none

/-- What the ELK/Defender network loop emits for one connection: a C2
indicator for a non-internal destination, nothing otherwise. -/
def c2NetInd (c : NetworkRec) : Option Indicator :=
  if isInternalIPO c.destinationIp = false then
    some (.str (c2IndStr c (jsOrStr c.processName "N/A")))
  else none

theorem sysmon_netLoop_inds (conns : List NetworkRec) :
    ∀ step, (Sysmon.netLoop step conns).inds = conns.filterMap sysmonNetInd := by
  induction conns with
  | nil => intro step; rfl
  | cons c rest ih =>
    intro step
    simp only [Sysmon.netLoop, List.filterMap_cons, sysmonNetInd]
    split_ifs with h1 h2 <;> simp [ih]

theorem sysmon_netLoop_chain_len (conns : List NetworkRec) :
    ∀ step, (Sysmon.netLoop step conns).chain.length =
      (Sysmon.netLoop step conns).inds.length := by
  induction conns with
  | nil => intro step; rfl
  | cons c rest ih =>
    intro step
    simp only [Sysmon.netLoop]
    split_ifs with h1 h2 <;> simp [ih]

theorem c2NetLoop_inds (conns : List NetworkRec) :
    ∀ step, (c2NetLoop step conns).inds = conns.filterMap c2NetInd := by
  induction conns with
  | nil => intro step; rfl
  | cons c rest ih =>
    intro step
    simp only [c2NetLoop, List.filterMap_cons, c2NetInd]
    split_ifs with h1 <;> simp [ih]

theorem c2NetLoop_chain_len (conns : List NetworkRec) :
    ∀ step, (c2NetLoop step conns).chain.length = (c2NetLoop step conns).inds.length := by
  induction conns with
  | nil => intro step; rfl
  | cons c rest ih =>
    intro step
    simp only [c2NetLoop]
    split_ifs with h1 <;> simp [ih]

/-- C4: the Sysmon and ELK/Defender network detectors emit exactly the
indicators given by their per-connection rule (so each non-internal
destination yields exactly one C2 indicator built from that connection's
destination IP), with exactly one attack-chain entry per indicator; the
Wazuh parser never produces network connections, so the rule is vacuous
there.  The end-to-end scenario with one EventID 3 record and public
destination 203.0.113.5 yields exactly one C2 indicator string containing
that IP, and the attack chain's only entry starts with
"1. Command and Control (C2)". -/
theorem c4_c2_rule :
    (∀ step conns, (Sysmon.netLoop step conns).inds = conns.filterMap sysmonNetInd) ∧
    (∀ step conns, (Sysmon.netLoop step conns).chain.length =
        (Sysmon.netLoop step conns).inds.length) ∧
    (∀ step conns, (c2NetLoop step conns).inds = conns.filterMap c2NetInd) ∧
    (∀ step conns, (c2NetLoop step conns).chain.length =
        (c2NetLoop step conns).inds.length) ∧
    (∀ now ds a, (Wazuh.processWazuhAlert now ds a).networkConnections =
        ds.networkConnections) ∧
    ((Sysmon.parseLogs emptyParsedData "T"
        [SrcContent.arr [{ EventID := some 3, DestinationIp := some "203.0.113.5" }]]
        "sysmon").2.map fun b => b.aptPatterns.threatIndicators) =
      some [Indicator.str "Command and Control Connection: Outbound connection to C2 IP: 203.0.113.5:undefined (Process: N/A)"] ∧
    ((Sysmon.parseLogs emptyParsedData "T"
        [SrcContent.arr [{ EventID := some 3, DestinationIp := some "203.0.113.5" }]]
        "sysmon").2.map fun b => b.aptPatterns.attackChain) =
      some ["1. Command and Control (C2): Suspicious network connection to 203.0.113.5:undefined from N/A"] ∧
    strHasSub "Command and Control Connection: Outbound connection to C2 IP: 203.0.113.5:undefined (Process: N/A)"
        "203.0.113.5" = true ∧
    (∃ r, "1. Command and Control (C2): Suspicious network connection to 203.0.113.5:undefined from N/A" =
        "1. Command and Control (C2)" ++ r) := by
  refine ⟨fun step conns => sysmon_netLoop_inds conns step,
    fun step conns => sysmon_netLoop_chain_len conns step,
    fun step conns => c2NetLoop_inds conns step,
    fun step conns => c2NetLoop_chain_len conns step,
    ?_, by decide, by decide, by decide,
    ⟨": Suspicious network connection to 203.0.113.5:undefined from N/A", by decide⟩⟩
  intro now ds a
  simp only [Wazuh.processWazuhAlert]
  split_ifs <;> rfl

/- ===================== C7 ===================== -/

theorem wazuh_threatLoop_spec (ts : List ThreatRec) :
    ∀ step, (Wazuh.threatLoop step ts).inds = ts.map threatProj ∧
      (Wazuh.threatLoop step ts).chain.length = ts.length := by
  induction ts with
  | nil => intro step; exact ⟨rfl, rfl⟩
  | cons t rest ih =>
    intro step
    simp only [Wazuh.threatLoop, List.map_cons, List.length_cons]
    exact ⟨by rw [(ih (step + 1)).1], by simp [(ih (step + 1)).2]⟩

/-- C7: the Wazuh detector projects every ThreatEvent into
threatIndicators and gives each one its own attack-chain entry,
unconditionally; the Defender detector appends every Detection to
threatIndicators only — its attack chain is unchanged by the threats list;
and the Sysmon and ELK parsers never produce ThreatEvents at all. -/
theorem c7_native_threats :
    (∀ ds, (Wazuh.generateVisualizationData ds).aptPatterns.threatIndicators =
        ds.threats.map threatProj) ∧
    (∀ ds, (Wazuh.generateVisualizationData ds).aptPatterns.attackChain.length =
        ds.threats.length) ∧
    (∀ ds b, Defender.generateVisualizationData ds = some b →
        ∀ t ∈ ds.threats, threatProj t ∈ b.aptPatterns.threatIndicators) ∧
    (∀ ds, (Defender.generateVisualizationData ds).map (fun b => b.aptPatterns.attackChain) =
        (Defender.generateVisualizationData { ds with threats := [] }).map
          (fun b => b.aptPatterns.attackChain)) ∧
    (∀ now ds (e : SysmonEvent), (Sysmon.processSysmonEvent now ds e).threats = ds.threats) ∧
    (∀ now ds (e : ElkEvent), (Elk.processGenericEvent now ds e).threats = ds.threats) := by
  refine ⟨?_, ?_, ?_, ?_, ?_, ?_⟩
  · intro ds
    simp [Wazuh.generateVisualizationData, (wazuh_threatLoop_spec ds.threats 1).1]
  · intro ds
    simp [Wazuh.generateVisualizationData, (wazuh_threatLoop_spec ds.threats 1).2]
  · intro ds b h t ht
    unfold Defender.generateVisualizationData at h
    cases hf : Defender.fileLoop (c2NetLoop 1 ds.networkConnections).step
        ds.fileActivities with
    | none => rw [hf] at h; exact absurd h (by simp)
    | some fo =>
      rw [hf] at h
      injection h with h'
      subst h'
      exact List.mem_append_right _ (List.mem_map_of_mem threatProj ht)
  · intro ds
    unfold Defender.generateVisualizationData
    cases hf : Defender.fileLoop (c2NetLoop 1 ds.networkConnections).step
        ds.fileActivities with
    | none => simp [hf]
    | some fo => simp [hf]
  · intro now ds e
    simp only [Sysmon.processSysmonEvent]
    split_ifs <;> rfl
  · intro now ds e
    rw [Elk.processGenericEvent, (elk_dnsPart_others now _ e).2.2.2,
      (elk_filePart_others now _ e).2.2.2, (elk_netPart_others now _ e).2.2.2,
      (elk_procPart_others now ds e).2.2.2]

/-- Concrete Detection threat used by the C7 witness. -/
def wt0 : ThreatRec :=
  { timestamp := "T", threatName := some "X", severity := some "High",
    description := some "D", threatType := "defender_detection", processName := "p" }

/-- Dataset holding one Detection threat, used by the C7 witness. -/
def wds0 : ParsedData := { threats := [wt0] }

/-- Bundle the Defender detector produces from `wds0`. -/
def wb0 : Bundle := ⟨⟨[threatProj wt0], []⟩, ⟨[]⟩, ⟨[], []⟩⟩

/-- C7 witness: the Defender membership conjunct applied at a one-Detection
dataset. -/
theorem c7_native_threats_witness :
    threatProj wt0 ∈ wb0.aptPatterns.threatIndicators :=
  c7_native_threats.2.2.1 wds0 wb0 rfl wt0 (by simp [wds0])

/- ===================== C8 ===================== -/

theorem sysmon_netLoop_chain_cases (conns : List NetworkRec) :
    ∀ step, ((Sysmon.netLoop step conns).chain = [] ∧
        (Sysmon.netLoop step conns).step = step) ∨
      (∃ c pn tl, (Sysmon.netLoop step conns).chain = c2ChainStr step c pn :: tl) ∨
      (∃ c tl, (Sysmon.netLoop step conns).chain = smbChainStr step c :: tl) := by
  induction conns with
  | nil => intro step; exact Or.inl ⟨rfl, rfl⟩
  | cons c rest ih =>
    intro step
    simp only [Sysmon.netLoop]
    split_ifs with h1 h2
    · exact Or.inr (Or.inl ⟨c, jsOrStr c.processName "N/A",
        (Sysmon.netLoop (step + 1) rest).chain, rfl⟩)
    · exact Or.inr (Or.inr ⟨c, (Sysmon.netLoop (step + 1) rest).chain, rfl⟩)
    · exact ih step

theorem c2NetLoop_chain_cases (conns : List NetworkRec) :
    ∀ step, ((c2NetLoop step conns).chain = [] ∧ (c2NetLoop step conns).step = step) ∨
      (∃ c pn tl, (c2NetLoop step conns).chain = c2ChainStr step c pn :: tl) := by
  induction conns with
  | nil => intro step; exact Or.inl ⟨rfl, rfl⟩
  | cons c rest ih =>
    intro step
    simp only [c2NetLoop]
    split_ifs with h1
    · exact Or.inr ⟨c, jsOrStr c.processName "N/A",
        (c2NetLoop (step + 1) rest).chain, rfl⟩
    · exact ih step

theorem sysmon_fileLoop_chain_cases (fs : List FileRec) :
    ∀ step o, Sysmon.fileLoop step fs = some o →
      (o.chain = [] ∧ o.step = step) ∨
      (∃ f tl, o.chain = sysmonExfilChainStr step f :: tl) ∨
      (∃ f tl, o.chain = tamperChainStr step f :: tl) := by
  induction fs with
  | nil =>
    intro step o h
    injection h with h'
    subst h'
    exact Or.inl ⟨rfl, rfl⟩
  | cons f rest ih =>
    intro step o h
    simp only [Sysmon.fileLoop] at h
    split_ifs at h with h1 h2
    · cases hp : f.filePath with
      | none => rw [hp] at h; simp at h
      | some p =>
        rw [hp] at h
        dsimp only at h
        split_ifs at h with ht
        · rcases Option.map_eq_some'.mp h with ⟨o', ho', rfl⟩
          exact Or.inr (Or.inl ⟨f, o'.chain, rfl⟩)
        · rcases Option.map_eq_some'.mp h with ⟨o', ho', rfl⟩
          rcases ih step o' ho' with h3 | ⟨g, tl, h3⟩ | ⟨g, tl, h3⟩
          · exact Or.inl ⟨h3.1, h3.2⟩
          · exact Or.inr (Or.inl ⟨g, tl, h3⟩)
          · exact Or.inr (Or.inr ⟨g, tl, h3⟩)
    · rcases Option.map_eq_some'.mp h with ⟨o', ho', rfl⟩
      exact Or.inr (Or.inr ⟨f, o'.chain, rfl⟩)
    · rcases Option.map_eq_some'.mp h with ⟨o', ho', rfl⟩
      rcases ih step o' ho' with h3 | ⟨g, tl, h3⟩ | ⟨g, tl, h3⟩
      · exact Or.inl ⟨h3.1, h3.2⟩
      · exact Or.inr (Or.inl ⟨g, tl, h3⟩)
      · exact Or.inr (Or.inr ⟨g, tl, h3⟩)

theorem defender_fileLoop_chain_cases (fs : List FileRec) :
    ∀ step o, Defender.fileLoop step fs = some o →
      (o.chain = [] ∧ o.step = step) ∨
      (∃ f tl, o.chain = Defender.exfilChainStr step f :: tl) := by
  induction fs with
  | nil =>
    intro step o h
    injection h with h'
    subst h'
    exact Or.inl ⟨rfl, rfl⟩
  | cons f rest ih =>
    intro step o h
    simp only [Defender.fileLoop] at h
    split_ifs at h with h1
    · cases hp : f.filePath with
      | none => rw [hp] at h; simp at h
      | some p =>
        rw [hp] at h
        dsimp only at h
        split_ifs at h with ht
        · rcases Option.map_eq_some'.mp h with ⟨o', ho', rfl⟩
          exact Or.inr ⟨f, o'.chain, rfl⟩
        · rcases Option.map_eq_some'.mp h with ⟨o', ho', rfl⟩
          rcases ih step o' ho' with h3 | ⟨g, tl, h3⟩
          · exact Or.inl ⟨h3.1, h3.2⟩
          · exact Or.inr ⟨g, tl, h3⟩
    · rcases Option.map_eq_some'.mp h with ⟨o', ho', rfl⟩
      rcases ih step o' ho' with h3 | ⟨g, tl, h3⟩
      · exact Or.inl ⟨h3.1, h3.2⟩
      · exact Or.inr ⟨g, tl, h3⟩

theorem wazuh_threatLoop_chain_cases (ts : List ThreatRec) (step : Nat) :
    ((Wazuh.threatLoop step ts).chain = [] ∧ (Wazuh.threatLoop step ts).step = step) ∨
      ∃ t tl, (Wazuh.threatLoop step ts).chain = Wazuh.threatChainStr step t :: tl := by
  cases ts with
  | nil => exact Or.inl ⟨rfl, rfl⟩
  | cons t rest => exact Or.inr ⟨t, (Wazuh.threatLoop (step + 1) rest).chain, rfl⟩

theorem sysmon_viz_chain_head (ds : ParsedData) (b : Bundle) (hd : String)
    (tl : List String) (hb : Sysmon.generateVisualizationData ds = some b)
    (hchain : b.aptPatterns.attackChain = hd :: tl) :
    (∃ c pn, hd = c2ChainStr 1 c pn) ∨ (∃ c, hd = smbChainStr 1 c) ∨
    (∃ f, hd = sysmonExfilChainStr 1 f) ∨ (∃ f, hd = tamperChainStr 1 f) := by
  unfold Sysmon.generateVisualizationData at hb
  cases hf : Sysmon.fileLoop (Sysmon.netLoop 1 ds.networkConnections).step
      ds.fileActivities with
  | none => rw [hf] at hb; exact Option.noConfusion hb
  | some fo =>
    rw [hf] at hb
    cases hb
    have hchain2 : (Sysmon.netLoop 1 ds.networkConnections).chain ++ fo.chain =
        hd :: tl := hchain
    rcases sysmon_netLoop_chain_cases ds.networkConnections 1 with
      ⟨hnil, hstep⟩ | ⟨c, pn, tl2, hc⟩ | ⟨c, tl2, hc⟩
    · rw [hnil, List.nil_append] at hchain2
      rw [hstep] at hf
      rcases sysmon_fileLoop_chain_cases ds.fileActivities 1 fo hf with
        ⟨hnil2, _⟩ | ⟨f, tl3, hcf⟩ | ⟨f, tl3, hcf⟩
      · rw [hnil2] at hchain2; exact List.noConfusion hchain2
      · rw [hcf] at hchain2
        injection hchain2 with h1 _
        exact Or.inr (Or.inr (Or.inl ⟨f, h1.symm⟩))
      · rw [hcf] at hchain2
        injection hchain2 with h1 _
        exact Or.inr (Or.inr (Or.inr ⟨f, h1.symm⟩))
    · rw [hc, List.cons_append] at hchain2
      injection hchain2 with h1 _
      exact Or.inl ⟨c, pn, h1.symm⟩
    · rw [hc, List.cons_append] at hchain2
      injection hchain2 with h1 _
      exact Or.inr (Or.inl ⟨c, h1.symm⟩)

theorem defender_viz_chain_head (ds : ParsedData) (b : Bundle) (hd : String)
    (tl : List String) (hb : Defender.generateVisualizationData ds = some b)
    (hchain : b.aptPatterns.attackChain = hd :: tl) :
    (∃ c pn, hd = c2ChainStr 1 c pn) ∨ (∃ f, hd = Defender.exfilChainStr 1 f) := by
  unfold Defender.generateVisualizationData at hb
  cases hf : Defender.fileLoop (c2NetLoop 1 ds.networkConnections).step
      ds.fileActivities with
  | none => rw [hf] at hb; exact Option.noConfusion hb
  | some fo =>
    rw [hf] at hb
    cases hb
    have hchain2 : (c2NetLoop 1 ds.networkConnections).chain ++ fo.chain =
        hd :: tl := hchain
    rcases c2NetLoop_chain_cases ds.networkConnections 1 with
      ⟨hnil, hstep⟩ | ⟨c, pn, tl2, hc⟩
    · rw [hnil, List.nil_append] at hchain2
      rw [hstep] at hf
      rcases defender_fileLoop_chain_cases ds.fileActivities 1 fo hf with
        ⟨hnil2, _⟩ | ⟨f, tl3, hcf⟩
      · rw [hnil2] at hchain2; exact List.noConfusion hchain2
      · rw [hcf] at hchain2
        injection hchain2 with h1 _
        exact Or.inr ⟨f, h1.symm⟩
    · rw [hc, List.cons_append] at hchain2
      injection hchain2 with h1 _
      exact Or.inl ⟨c, pn, h1.symm⟩

theorem elk_viz_chain_head (ds : ParsedData) (hd : String) (tl : List String)
    (hchain : (Elk.generateVisualizationData ds).aptPatterns.attackChain = hd :: tl) :
    ∃ c pn, hd = c2ChainStr 1 c pn := by
  have h2 : (c2NetLoop 1 ds.networkConnections).chain = hd :: tl := hchain
  rcases c2NetLoop_chain_cases ds.networkConnections 1 with ⟨hnil, _⟩ | ⟨c, pn, tl2, hc⟩
  · rw [hnil] at h2; exact List.noConfusion h2
  · rw [hc] at h2
    injection h2 with h1 _
    exact ⟨c, pn, h1.symm⟩

theorem wazuh_viz_chain_head (ds : ParsedData) (hd : String) (tl : List String)
    (hchain : (Wazuh.generateVisualizationData ds).aptPatterns.attackChain = hd :: tl) :
    ∃ t, hd = Wazuh.threatChainStr 1 t := by
  have h2 : (Wazuh.threatLoop 1 ds.threats).chain = hd :: tl := hchain
  rcases wazuh_threatLoop_chain_cases ds.threats 1 with ⟨hnil, _⟩ | ⟨t, tl2, hc⟩
  · rw [hnil] at h2; exact List.noConfusion h2
  · rw [hc] at h2
    injection h2 with h1 _
    exact ⟨t, h1.symm⟩

/-- C8: re-running parseLogs on its own output state yields the identical
bundle for every adapter (the instance dataset is reset at the top of every
call), and the attack-chain counter restarts at 1 on every call: whenever
the returned chain is non-empty, its first entry is one of the chain
templates instantiated at step 1. -/
theorem c8_idempotent_rerun :
    (∀ prior now files format,
        (Sysmon.parseLogs (Sysmon.parseLogs prior now files format).1 now files
            format).2 = (Sysmon.parseLogs prior now files format).2) ∧
    (∀ prior now files format,
        (Elk.parseLogs (Elk.parseLogs prior now files format).1 now files
            format).2 = (Elk.parseLogs prior now files format).2) ∧
    (∀ prior now files format,
        (Defender.parseLogs (Defender.parseLogs prior now files format).1 now files
            format).2 = (Defender.parseLogs prior now files format).2) ∧
    (∀ prior now files format,
        (Wazuh.parseLogs (Wazuh.parseLogs prior now files format).1 now files
            format).2 = (Wazuh.parseLogs prior now files format).2) ∧
    (∀ prior now files format b hd tl,
        (Sysmon.parseLogs prior now files format).2 = some b →
        b.aptPatterns.attackChain = hd :: tl →
        (∃ c pn, hd = c2ChainStr 1 c pn) ∨ (∃ c, hd = smbChainStr 1 c) ∨
        (∃ f, hd = sysmonExfilChainStr 1 f) ∨ (∃ f, hd = tamperChainStr 1 f)) ∧
    (∀ prior now files format hd tl,
        (Elk.parseLogs prior now files format).2.aptPatterns.attackChain = hd :: tl →
        ∃ c pn, hd = c2ChainStr 1 c pn) ∧
    (∀ prior now files format b hd tl,
        (Defender.parseLogs prior now files format).2 = some b →
        b.aptPatterns.attackChain = hd :: tl →
        (∃ c pn, hd = c2ChainStr 1 c pn) ∨ (∃ f, hd = Defender.exfilChainStr 1 f)) ∧
    (∀ prior now files format hd tl,
        (Wazuh.parseLogs prior now files format).2.aptPatterns.attackChain = hd :: tl →
        ∃ t, hd = Wazuh.threatChainStr 1 t) := by
  refine ⟨fun _ _ _ _ => rfl, fun _ _ _ _ => rfl, fun _ _ _ _ => rfl,
    fun _ _ _ _ => rfl, ?_, ?_, ?_, ?_⟩
  · intro prior now files format b hd tl hb hchain
    exact sysmon_viz_chain_head
      (files.foldl (fun d c => Sysmon.parseByFormat now d c format) emptyParsedData)
      b hd tl hb hchain
  · intro prior now files format hd tl hchain
    exact elk_viz_chain_head
      (files.foldl (fun d c => Elk.parseByFormat now d c format) emptyParsedData)
      hd tl hchain
  · intro prior now files format b hd tl hb hchain
    exact defender_viz_chain_head
      (files.foldl (fun d c => Defender.parseByFormat now d c format) emptyParsedData)
      b hd tl hb hchain
  · intro prior now files format hd tl hchain
    exact wazuh_viz_chain_head
      (files.foldl (fun d c => Wazuh.parseByFormat now d c format) emptyParsedData)
      hd tl hchain

/-- Concrete event used by the C8 witness. -/
def c8wEv : SysmonEvent := { EventID := some 3, DestinationIp := some "203.0.113.5" }

/-- The network record the Sysmon adapter builds from `c8wEv`. -/
def c8wConn : NetworkRec :=
  { timestamp := "T", destinationIp := some "203.0.113.5", processName := "N/A" }

/-- The bundle the Sysmon adapter returns for `[c8wEv]`. -/
def c8wBundle : Bundle :=
  ⟨⟨[.str (c2IndStr c8wConn "N/A")], [c2ChainStr 1 c8wConn "N/A"]⟩, ⟨[]⟩,
   ⟨[⟨c8wConn, "N/A"⟩], []⟩⟩

/-- C8 witness: the Sysmon restart conjunct applied at a concrete run with a
non-empty attack chain. -/
theorem c8_idempotent_rerun_witness :
    (∃ c pn, c2ChainStr 1 c8wConn "N/A" = c2ChainStr 1 c pn) ∨
    (∃ c, c2ChainStr 1 c8wConn "N/A" = smbChainStr 1 c) ∨
    (∃ f, c2ChainStr 1 c8wConn "N/A" = sysmonExfilChainStr 1 f) ∨
    (∃ f, c2ChainStr 1 c8wConn "N/A" = tamperChainStr 1 f) :=
  c8_idempotent_rerun.2.2.2.2.1 emptyParsedData "T" [SrcContent.arr [c8wEv]] "sysmon"
    c8wBundle (c2ChainStr 1 c8wConn "N/A") [] rfl rfl

/- ===================== C9 ===================== -/

/-- C9: when the declared format does not match the adapter's identity, no
parsing happens and the returned bundle has every category list empty; in
the embedding the call is total, so no exception escapes. -/
theorem c9_unsupported_format :
    (∀ prior now files format, format ≠ "sysmon" →
        (Sysmon.parseLogs prior now files format).2 = some emptyBundle) ∧
    (∀ prior now files format, format ≠ "elk" →
        (Elk.parseLogs prior now files format).2 = emptyBundle) ∧
    (∀ prior now files format, format ≠ "defender" →
        (Defender.parseLogs prior now files format).2 = some emptyBundle) ∧
    (∀ prior now files format, format ≠ "wazuh" →
        (Wazuh.parseLogs prior now files format).2 = emptyBundle) := by
  refine ⟨?_, ?_, ?_, ?_⟩
  · intro prior now files format h
    have hfold : ∀ (fs : List (SrcContent SysmonEvent)) (d : ParsedData),
        fs.foldl (fun d c => Sysmon.parseByFormat now d c format) d = d := by
      intro fs
      induction fs with
      | nil => intro d; rfl
      | cons c rest ih => intro d; simp [Sysmon.parseByFormat, h, ih]
    simp only [Sysmon.parseLogs]
    rw [hfold]
    rfl
  · intro prior now files format h
    have hfold : ∀ (fs : List (SrcContent ElkLog)) (d : ParsedData),
        fs.foldl (fun d c => Elk.parseByFormat now d c format) d = d := by
      intro fs
      induction fs with
      | nil => intro d; rfl
      | cons c rest ih => intro d; simp [Elk.parseByFormat, h, ih]
    simp only [Elk.parseLogs]
    rw [hfold]
    rfl
  · intro prior now files format h
    have hfold : ∀ (fs : List (SrcContent DefenderEvent)) (d : ParsedData),
        fs.foldl (fun d c => Defender.parseByFormat now d c format) d = d := by
      intro fs
      induction fs with
      | nil => intro d; rfl
      | cons c rest ih => intro d; simp [Defender.parseByFormat, h, ih]
    simp only [Defender.parseLogs]
    rw [hfold]
    rfl
  · intro prior now files format h
    have hfold : ∀ (fs : List (SrcContent WazuhAlert)) (d : ParsedData),
        fs.foldl (fun d c => Wazuh.parseByFormat now d c format) d = d := by
      intro fs
      induction fs with
      | nil => intro d; rfl
      | cons c rest ih => intro d; simp [Wazuh.parseByFormat, h, ih]
    simp only [Wazuh.parseLogs]
    rw [hfold]
    rfl

/-- C9 witness: each adapter applied to a mismatched format tag on a
non-empty file list. -/
theorem c9_unsupported_format_witness :
    (Sysmon.parseLogs emptyParsedData "T" [SrcContent.invalid] "elk").2 =
      some emptyBundle ∧
    (Elk.parseLogs emptyParsedData "T" [SrcContent.invalid] "sysmon").2 = emptyBundle ∧
    (Defender.parseLogs emptyParsedData "T" [SrcContent.invalid] "wazuh").2 =
      some emptyBundle ∧
    (Wazuh.parseLogs emptyParsedData "T" [SrcContent.invalid] "defender").2 =
      emptyBundle :=
  ⟨c9_unsupported_format.1 emptyParsedData "T" [SrcContent.invalid] "elk" (by decide),
   c9_unsupported_format.2.1 emptyParsedData "T" [SrcContent.invalid] "sysmon" (by decide),
   c9_unsupported_format.2.2.1 emptyParsedData "T" [SrcContent.invalid] "wazuh" (by decide),
   c9_unsupported_format.2.2.2 emptyParsedData "T" [SrcContent.invalid] "defender" (by decide)⟩

/- ===================== C10 ===================== -/

/-- C10: the claim fails on the code.  A Sysmon file-created event with no
TargetFilename (and likewise a Defender FileCreated event with no
FileName/FolderPath) reaches `file.filePath.includes('Temp')` with an
undefined filePath; the TypeError escapes generateVisualizationData and no
bundle of any shape is returned (modelled as `none`). -/
theorem c10_crash_eval :
    (Sysmon.parseLogs emptyParsedData "T"
        [SrcContent.arr [{ EventID := some 11 }]] "sysmon").2 = none ∧
    ({ EventID := some 11 } : SysmonEvent).TargetFilename = none ∧
    (Defender.parseLogs emptyParsedData "T"
        [SrcContent.arr [{ EventType := some "FileCreated" }]] "defender").2 = none ∧
    ({ EventType := some "FileCreated" } : DefenderEvent).FileName = none := by
  exact ⟨rfl, rfl, rfl, rfl⟩
